import Mathlib

/-!
Verification development for the aioskybell client library.

The Python source is shallowly embedded: JSON values become the inductive
`JValue` (Python dicts become insertion-ordered association lists, matching
CPython dict semantics), stateful methods become explicit state-passing
functions, fallible code returns `Except`, and the HTTP transport is a
script of outcomes consumed one per issued request.  Every issued request
is recorded in a log of URLs so that claims about "zero network calls" or
"exactly one retry" are about an observable trace.
-/

set_option autoImplicit false

/-- A JSON-like value as manipulated by the Python client.  `time` models a
`datetime` object produced by the external `ciso8601.parse_datetime` parser
applied to the carried string (the parser itself is external code and is
abstracted as a tagging injection).  `bytes` models a raw byte payload from
`response.read()`, carried as its textual content. -/
inductive JValue where
  | str (s : String)
  | int (n : Int)
  | bool (b : Bool)
  | obj (fields : List (String × JValue))
  | arr (elems : List JValue)
  | bytes (s : String)
  | time (s : String)

/-- A Python dict with string keys: an association list in insertion order. -/
abbrev Obj := List (String × JValue)

/-- Lookup in an association list (Python `d.get(k)` / `d[k]`). -/
def getA {α : Type} : List (String × α) → String → Option α
  | [], _ => none
  | (k, v) :: rest, key => if k = key then some v else getA rest key

/-- Assignment `d[k] = v` with CPython dict semantics: an existing key keeps
its position, a new key is appended at the end. -/
def putA {α : Type} : List (String × α) → String → α → List (String × α)
  | [], key, v => [(key, v)]
  | (k, w) :: rest, key, v =>
      if k = key then (key, v) :: rest else (k, w) :: putA rest key v

/-- Python `len` on the values that the client takes lengths of (dicts,
strings, lists); other values never reach a `len` call in the modelled
paths. -/
def lenJ : JValue → Nat
  | .obj fields => fields.length
  | .str s => s.length
  | .arr elems => elems.length
  | .bytes s => s.length
  | _ => 0

mutual

/-- Structural equality of JSON values (Python `==` on the scalar and
container values compared by the client). -/
def beqJ : JValue → JValue → Bool
  | .str a, .str b => a == b
  | .int a, .int b => a == b
  | .bool a, .bool b => a == b
  | .obj a, .obj b => beqObj a b
  | .arr a, .arr b => beqArr a b
  | .bytes a, .bytes b => a == b
  | .time a, .time b => a == b
  | _, _ => false

def beqObj : List (String × JValue) → List (String × JValue) → Bool
  | [], [] => true
  | (k, v) :: r, (k2, v2) :: r2 => k == k2 && beqJ v v2 && beqObj r r2
  | _, _ => false

def beqArr : List JValue → List JValue → Bool
  | [], [] => true
  | v :: r, v2 :: r2 => beqJ v v2 && beqArr r r2
  | _, _ => false

end

/-- Replacement of every occurrence of a pattern, over character lists
(executable embedding of Python `str.replace`, replacing non-overlapping
occurrences left to right). -/
def replaceChars (pat rep : List Char) : List Char → List Char
  | [] => []
  | c :: cs =>
      if pat.isPrefixOf (c :: cs) then
        rep ++ replaceChars pat rep (cs.drop (pat.length - 1))
      else
        c :: replaceChars pat rep cs
termination_by l => l.length
decreasing_by
  · simp only [List.length_drop, List.length_cons]
    omega
  · simp

/-- Python `template.replace(pattern, replacement)` on strings. -/
def strReplace (s pat rep : String) : String :=
  ⟨replaceChars pat.data rep.data s.data⟩

/-- Lexicographic comparison of character lists by code point. -/
def charsLt : List Char → List Char → Bool
  | [], [] => false
  | [], _ :: _ => true
  | _ :: _, [] => false
  | a :: as, b :: bs => if a = b then charsLt as bs else decide (a < b)

/-- Python `a < b` on strings: lexicographic by code point. -/
def strLt (a b : String) : Bool := charsLt a.data b.data

/-- Python `a < b` on the JSON values the client compares (string or integer
timestamps); comparing incompatible types raises a `TypeError` in Python,
modelled as `none`. -/
def jLt : JValue → JValue → Option Bool
  | .str a, .str b => some (strLt a b)
  | .int a, .int b => some (decide (a < b))
  | _, _ => none

/-- Python `a >= b` on the compared JSON values (`a >= b` is the negation of
`a < b` for these totally ordered types). -/
def jGe (a b : JValue) : Option Bool := (jLt a b).map (fun r => !r)

mutual

/-- Modelled from the spec: the deep-merge utility `utils.update` (the file
`utils.py` is referenced by the source as `UTILS.update` but is not present
under `src/`).  Per the spec glossary it is a "recursive union of two nested
map structures where leaf values in the incoming map overwrite corresponding
leaves in the existing map, non-overlapping paths preserved from both", and
per the AuthCache contract `update({key: empty})` clears the stored value at
`key`; accordingly an incoming empty map replaces rather than merges. -/
def update : List (String × JValue) → List (String × JValue) → List (String × JValue)
  | dst, [] => dst
  | dst, (k, v) :: rest => update (update1 dst k v) rest

/-- One key of the deep merge: merge recursively when both sides hold a
non-empty map at the key, otherwise overwrite. -/
def update1 (dst : List (String × JValue)) (k : String) (v : JValue) :
    List (String × JValue) :=
  match getA dst k, v with
  | some (.obj d), .obj m =>
      if m.isEmpty then putA dst k (.obj m)
      else putA dst k (.obj (update d m))
  | _, _ => putA dst k v

end

namespace CONST

/-- Constants from `helpers/const.py`. -/
def BASE_API_DOMAIN : String := "https://api.skybell.network"

def BASE_AUTH_DOMAIN : String := "https://api.skybell.network"

def BASE_URL : String := "/api/v5"

def BASE_API_URL : String := BASE_API_DOMAIN ++ BASE_URL

def LOGIN_URL : String := BASE_AUTH_DOMAIN ++ BASE_URL ++ "/login/"

def USER_URL : String := BASE_API_URL ++ "/user/"

def DEVICES_URL : String := BASE_API_URL ++ "/devices/"

def DEVICE_URL : String := DEVICES_URL ++ "$DEVID$/"

def DEVICE_SNAPSHOT_URL : String := DEVICE_URL ++ "snapshot/"

def DEVICE_SETTINGS_URL : String := DEVICE_URL ++ "settings/"

def ACTIVITIES_URL : String := BASE_API_URL ++ "/activity"

def ACTIVITY_URL : String := ACTIVITIES_URL ++ "/$ACTID$/"

def ACTIVITY_VIDEO_URL : String := ACTIVITY_URL ++ "/video/"

def DEVICE_ACTIVITIES_URL : String := ACTIVITIES_URL ++ "?device_id=$DEVID$"

def AUTHENTICATION_RESULT : String := "AuthenticationResult"

def RESPONSE_DATA : String := "data"

def RESPONSE_ROWS : String := "rows"

def DEVICE_ID : String := "device_id"

def EVENT_TYPE : String := "event_type"

def EVENT_TIME : String := "event_time"

def VIDEO_URL : String := "video_url"

def DOWNLOAD_URL : String := "download_url"

def ACTIVITY : String := "activity"

def ACTIVITY_ID : String := "activity_id"

def SNAPSHOT : String := "avatar"

def PREVIEW_CREATED_AT : String := "date_time"

def PREVIEW_IMAGE : String := "preview"

def SETTINGS : String := "settings"

def INDOOR_CHIME : String := "indoor_chime"

def INDOOR_DIGITAL_CHIME : String := "digital_chime"

def OUTDOOR_CHIME : String := "outdoor_chime"

def MOTION_DETECTION : String := "motion_detection"

def OUTDOOR_CHIME_VOLUME : String := "outdoor_chime_volume"

def SPEAKER_VOLUME : String := "speaker_volume"

def CHIME_FILE : String := "chime_file"

def OUTDOOR_CHIME_FILE : String := "outdoor_chime_file"

def IMAGE_QUALITY : String := "image_quality"

def BOOL_SETTINGS : List String :=
  [INDOOR_CHIME, INDOOR_DIGITAL_CHIME, OUTDOOR_CHIME, MOTION_DETECTION]

def BOOL_STRINGS : List String := ["True", "False"]

def OUTDOOR_CHIME_VALUES : List Int := [0, 1, 2]

def SPEAKER_VOLUME_VALUES : List Int := [0, 1, 2]

/-- Modelled from the spec: `CONST.CHIME_FILE_VALUES` is referenced by
`device.py` but absent from the `const.py` under `src/`; per the spec it is
an enumerated discrete domain of chime file names, whose exact members no
claim depends on. -/
def CHIME_FILE_VALUES : List String := ["1.wav", "2.wav", "3.wav"]

def IMAGE_QUALITY_VALUES : List Int := [0, 1, 2, 3]

/-- Modelled from the spec: token-related constant names used by
`__init__.py` (`CONST.TOKEN_EXPIRATION`, `CONST.TOKEN_TYPE`,
`CONST.ID_TOKEN`, `CONST.EXPIRATION_DATE`, `CONST.EXPIRATION_SLACK`,
`CONST.REFRESH_CYCLE`) are absent from the `const.py` present under `src/`.
The login endpoint contract in the spec names the response fields
`{AuthenticationResult: {AccessToken, RefreshToken, TokenType, ExpiresIn}}`,
so the field-name constants follow those words; the slack and refresh-cycle
margins are opaque positive values whose exact magnitudes no claim depends
on. -/
def TOKEN_EXPIRATION : String := "ExpiresIn"

def TOKEN_TYPE : String := "TokenType"

def ID_TOKEN : String := "AccessToken"

def REFRESH_TOKEN : String := "RefreshToken"

def EXPIRATION_DATE : String := "expiration_date"

def EXPIRATION_SLACK : Int := 30

def REFRESH_CYCLE : Int := 3600

end CONST

/-- Modelled from the spec: `utils.calculate_expiration` (in the missing
`utils.py`), per the ExpirationCalculator contract: returns
`now + min(lifetimeSeconds - slackSeconds, refreshCycleSeconds)`, with a
negative subtraction treated as a zero margin. -/
def calculate_expiration (expires_in slack refresh_cycle now : Int) : Int :=
  now + min (max (expires_in - slack) 0) refresh_cycle

/-- A value passed to `async_set_setting` or `_validate_setting`. -/
inductive SettingValue where
  | s (v : String)
  | i (v : Int)
  | b (v : Bool)
deriving DecidableEq

/-- Exception kinds raised by the embedded code.  `clientError` is the
`aiohttp` transport exception family `ClientError`, which covers both
connection failures and the `ClientResponseError` raised by
`response.raise_for_status()`; it is always caught inside
`async_send_request` and never escapes it.  The Skybell exception classes
live in the `exceptions.py` missing from `src/`; per the spec taxonomy,
`authentication` is AuthenticationFailed, `unknownResource` is
UnknownResource, `badRequest` is BadRequest, `skybell msg` is the base
`SkybellException` (TransportError when raised from a transport failure,
with the carried message distinguishing NotFound and similar uses), and
`invalidSetting` is InvalidSettingValue carrying the offending key and
value.  `pyErr` models an ordinary uncaught Python error (`KeyError`,
`TypeError`, `AttributeError`). -/
inductive ReqError where
  | clientError
  | authentication
  | unknownResource
  | badRequest
  | skybell (msg : String)
  | invalidSetting (k : String) (v : SettingValue)
  | pyErr

/-- One scripted outcome of a physical HTTP request: either a transport-level
connection failure (an `aiohttp` `ClientError` with no HTTP status), or a
received response with its status, content type and body. -/
inductive HttpOutcome where
  | connFail
  | resp (status : Nat) (contentType : String) (body : JValue)

/-- The state of one `SkybellDevice` object. -/
structure Device where
  deviceId : String
  deviceJson : Obj
  snapshotJson : Obj
  activities : List JValue
  events : List (String × Obj)
  imageActivity : Option JValue
  imageSnapshot : Option String

/-- The state of one `Skybell` client object: the persistent cache mapping
(whose reserved key holds the AuthenticationMaterial), the stored
credentials, the device registry, and the connection-resource flags. -/
structure Client where
  cache : Obj
  username : Option String
  password : Option String
  devices : List (String × Device)
  closeSession : Bool
  sessionClosed : Bool
  now : Int

/-- Result of running an embedded operation: the returned value or raised
exception, the updated client, the unconsumed remainder of the transport
script, and the log of URLs of every physical request issued, in order. -/
structure Res (α : Type) where
  r : Except ReqError α
  cl : Client
  sc : List HttpOutcome
  log : List String

/-- Method `Skybell.cache`: a non-failing cached-value lookup, defaulting to
an empty string. -/
def cache (cl : Client) (key : String) : JValue :=
  (getA cl.cache key).getD (.str "")

/-- Method `Skybell.async_update_cache`: deep-merge `data` into the cache
mapping (the synchronous flush to the external blob store has no effect on
the modelled state). -/
def async_update_cache (cl : Client) (data : Obj) : Client :=
  { cl with cache := update cl.cache data }

/-- Body parsing at the end of `async_send_request`: a JSON body is read
with `response.json()` and, when the result is a dict, unwrapped with
`local_response.get(CONST.RESPONSE_DATA, {})`; any other body is returned
unmodified (`response.read()` yields bytes, which are not a dict). -/
def parseResponse (contentType : String) (body : JValue) : JValue :=
  if contentType = "application/json" then
    match body with
    | .obj fields => (getA fields CONST.RESPONSE_DATA).getD (.obj [])
    | other => other
  else body

/-- The `try` block of `async_send_request`: issue one physical request
(consuming the next scripted outcome; an exhausted script behaves as a
connection failure) and classify the response.  Status 401, or 403 on the
login endpoint, clears the cached AuthenticationMaterial and raises
`SkybellAuthenticationException`; other 403 and 404 raise
`SkybellUnknownResourceException`; 400 raises `SkybellRequestException`.
For any remaining status at least 400, `response.raise_for_status()` raises
`aiohttp.ClientResponseError`, which is a subclass of `ClientError` and is
therefore indistinguishable here from a connection failure; statuses below
400 proceed to body parsing. -/
def sendRaw (url : String) (cl : Client) (sc : List HttpOutcome) : Res JValue :=
  match sc.headD HttpOutcome.connFail, sc.tail with
  | .connFail, rest => ⟨.error .clientError, cl, rest, [url]⟩
  | .resp status ct body, rest =>
      if status = 401 ∨ (status = 403 ∧ url = CONST.LOGIN_URL) then
        ⟨.error .authentication,
          async_update_cache cl [(CONST.AUTHENTICATION_RESULT, .obj [])], rest, [url]⟩
      else if status = 403 ∨ status = 404 then
        ⟨.error .unknownResource, cl, rest, [url]⟩
      else if status = 400 then
        ⟨.error .badRequest, cl, rest, [url]⟩
      else if 400 ≤ status then
        ⟨.error .clientError, cl, rest, [url]⟩
      else
        ⟨.ok (parseResponse ct body), cl, rest, [url]⟩

/-- One request with `retry=False` once past the initial login check: the
classified outcome of `sendRaw`, with a `ClientError` re-raised as a plain
`SkybellException` (the `except ClientError` arm with `retry` false). -/
def sendClient (url : String) (cl : Client) (sc : List HttpOutcome) : Res JValue :=
  let s := sendRaw url cl sc
  match s.r with
  | .error .clientError => ⟨.error (.skybell ""), s.cl, s.sc, s.log⟩
  | r => ⟨r, s.cl, s.sc, s.log⟩

/-- Method `Skybell.async_login` called with no arguments.  Requires stored
credentials, clears any cached login data, and sends the credentials to the
login endpoint with `retry=False` (for the login URL the initial
empty-cache check of `async_send_request` does not apply, so that call is
exactly `sendClient`).  Skybell exceptions from the send are re-raised;
any other exception from the send yields `False`.  The response is parsed
outside the `try`: a missing or ill-typed `AuthenticationResult` or
`ExpiresIn` field is an uncaught Python error.  On success the expiration
instant is added and the result is stored in the cache. -/
def async_login (cl : Client) (sc : List HttpOutcome) : Res Bool :=
  match cl.username, cl.password with
  | some _, some _ =>
    let cl1 := async_update_cache cl [(CONST.AUTHENTICATION_RESULT, .obj [])]
    let s := sendClient CONST.LOGIN_URL cl1 sc
    match s.r with
    | .error .pyErr => ⟨.ok false, s.cl, s.sc, s.log⟩
    | .error e => ⟨.error e, s.cl, s.sc, s.log⟩
    | .ok response =>
      match response with
      | .obj respFields =>
        match getA respFields CONST.AUTHENTICATION_RESULT with
        | some (.obj auth_result) =>
          match getA auth_result CONST.TOKEN_EXPIRATION with
          | some (.int expires_in) =>
            let expiration := calculate_expiration expires_in
              CONST.EXPIRATION_SLACK CONST.REFRESH_CYCLE cl.now
            let auth_result2 := putA auth_result CONST.EXPIRATION_DATE (.int expiration)
            let cl2 := async_update_cache s.cl
              [(CONST.AUTHENTICATION_RESULT, .obj auth_result2)]
            ⟨.ok true, cl2, s.sc, s.log⟩
          | _ => ⟨.error .pyErr, s.cl, s.sc, s.log⟩
        | _ => ⟨.error .pyErr, s.cl, s.sc, s.log⟩
      | _ => ⟨.error .pyErr, s.cl, s.sc, s.log⟩
  | _, _ => ⟨.error .authentication, cl, sc, []⟩

/-- The opening of `Skybell.async_send_request`: when the cached
AuthenticationMaterial is empty and the target is not the login endpoint,
perform a login first; a login that returns `False` fails the whole call
with `SkybellAuthenticationException`, and a login that raises propagates
its exception. -/
def ensureAuth (url : String) (cl : Client) (sc : List HttpOutcome) : Res Unit :=
  if lenJ (cache cl CONST.AUTHENTICATION_RESULT) = 0 ∧ url ≠ CONST.LOGIN_URL then
    let l := async_login cl sc
    match l.r with
    | .ok false => ⟨.error .authentication, l.cl, l.sc, l.log⟩
    | .ok true => ⟨.ok (), l.cl, l.sc, l.log⟩
    | .error e => ⟨.error e, l.cl, l.sc, l.log⟩
  else ⟨.ok (), cl, sc, []⟩

/-- `Skybell.async_send_request` with `retry=False`: the login check
followed by one classified request, with a `ClientError` propagated
immediately as a plain `SkybellException`. -/
def async_send_request_noretry (url : String) (cl : Client) (sc : List HttpOutcome) :
    Res JValue :=
  let a := ensureAuth url cl sc
  match a.r with
  | .error e => ⟨.error e, a.cl, a.sc, a.log⟩
  | .ok _ =>
    let s := sendRaw url a.cl a.sc
    match s.r with
    | .error .clientError => ⟨.error (.skybell ""), s.cl, s.sc, a.log ++ s.log⟩
    | r => ⟨r, s.cl, s.sc, a.log ++ s.log⟩

/-- `Skybell.async_send_request` with `retry=True`: the login check followed
by one classified request; on a `ClientError` (connection failure or
`raise_for_status`) it performs one login — whose boolean result is not
checked — and re-sends the same request once with `retry=False`. -/
def async_send_request_retry (url : String) (cl : Client) (sc : List HttpOutcome) :
    Res JValue :=
  let a := ensureAuth url cl sc
  match a.r with
  | .error e => ⟨.error e, a.cl, a.sc, a.log⟩
  | .ok _ =>
    let s := sendRaw url a.cl a.sc
    match s.r with
    | .error .clientError =>
      let l := async_login s.cl s.sc
      match l.r with
      | .error e => ⟨.error e, l.cl, l.sc, a.log ++ s.log ++ l.log⟩
      | .ok _ =>
        let n := async_send_request_noretry url l.cl l.sc
        ⟨n.r, n.cl, n.sc, a.log ++ s.log ++ l.log ++ n.log⟩
    | r => ⟨r, s.cl, s.sc, a.log ++ s.log⟩

/-- `Skybell.async_send_request`, dispatching on the `retry` argument (the
source's recursive self-call with `retry=False` is the `noretry` unrolling,
so the single-retry bound is structural). -/
def async_send_request (retry : Bool) (url : String) (cl : Client)
    (sc : List HttpOutcome) : Res JValue :=
  if retry then async_send_request_retry url cl sc
  else async_send_request_noretry url cl sc

/-- Method `Skybell.async_logout`: when the cached AuthenticationMaterial is
non-empty, close the owned connection resource and discard the device
registry; in every case clear the AuthenticationMaterial and report
success. -/
def async_logout (cl : Client) : Bool × Client :=
  let cl1 :=
    if 0 < lenJ (cache cl CONST.AUTHENTICATION_RESULT) then
      { cl with sessionClosed := cl.sessionClosed || cl.closeSession, devices := [] }
    else cl
  (true, async_update_cache cl1 [(CONST.AUTHENTICATION_RESULT, .obj [])])

/-- Python truthiness of the JSON values tested by the client. -/
def truthyJ : JValue → Bool
  | .str s => !(s == "")
  | .int n => !(n == 0)
  | .bool b => b
  | .obj l => !l.isEmpty
  | .arr l => !l.isEmpty
  | .bytes s => !(s == "")
  | .time _ => true

/-- Method `SkybellDevice._async_update_events`: fold the incoming activity
list over the existing event index.  For each activity, the entry for its
event type is replaced when no entry exists (or the stored entry is an
empty, hence falsy, dict) or when the incoming event time compares `>=` the
stored entry's event time.  The fold returns the (possibly partially
updated) index together with the uncaught Python error, if any, raised
mid-iteration by a missing key or an ill-typed comparison; event types are
taken as strings (the only shape the API delivers). -/
def _async_update_events (events : List (String × Obj)) :
    List JValue → (List (String × Obj)) × Option ReqError
  | [] => (events, none)
  | activity :: rest =>
    match activity with
    | .obj act =>
      match getA act CONST.EVENT_TYPE, getA act CONST.EVENT_TIME with
      | some (.str event_type), some event_time =>
        match getA events event_type with
        | none => _async_update_events (putA events event_type act) rest
        | some old =>
          if old.isEmpty then _async_update_events (putA events event_type act) rest
          else
            match getA old CONST.EVENT_TIME with
            | none => (events, some .pyErr)
            | some oldTime =>
              match jGe event_time oldTime with
              | none => (events, some .pyErr)
              | some true => _async_update_events (putA events event_type act) rest
              | some false => _async_update_events events rest
      | _, _ => (events, some .pyErr)
    | _ => (events, some .pyErr)

/-- The accumulator loop of `SkybellDevice.latest` with no event filter:
scan every indexed record, keeping the record with the greatest event time;
a record that is falsy (empty) or a still-unset date always loses.  A
missing `event_time` key or an ill-typed comparison is an uncaught Python
error. -/
def latestLoop : List Obj → Obj → Option JValue → Except ReqError Obj
  | [], acc, _ => .ok acc
  | evt :: rest, acc, accDate =>
    match getA evt CONST.EVENT_TIME with
    | none => .error .pyErr
    | some date =>
      if acc.isEmpty then latestLoop rest evt (some date)
      else
        match accDate with
        | none => latestLoop rest evt (some date)
        | some a =>
          match jLt a date with
          | none => .error .pyErr
          | some true => latestLoop rest evt (some date)
          | some false => latestLoop rest acc accDate

/-- Method `SkybellDevice.latest`.  With an event filter, look up the
`device:sensor:<event>` index key; if absent or falsy, fall back to
`application:on-<event>` with a synthetic default holding the epoch
timestamp; then return the chosen record unioned with an entry mapping
`event_time` to `parse_datetime` of its stored string (a missing or
non-string stored time is an uncaught Python error).  With no filter,
return the indexed record with the greatest event time, starting from an
empty record. -/
def latest (events : List (String × Obj)) : Option String → Except ReqError Obj
  | some event =>
    let sensorKey := "device:sensor:" ++ event
    let onKey := "application:on-" ++ event
    let dflt : Obj := [(CONST.EVENT_TIME, JValue.str "1970-01-01T00:00:00.000Z")]
    let evt0 := (getA events sensorKey).getD []
    let evt := if evt0.isEmpty then (getA events onKey).getD dflt else evt0
    match getA evt CONST.EVENT_TIME with
    | some (.str s) => .ok (putA evt CONST.EVENT_TIME (.time s))
    | _ => .error .pyErr
  | none => latestLoop (events.map Prod.snd) [] none

/-- Python `value in l` for a list of strings (a non-string value is never a
member). -/
def inStrList (value : SettingValue) (l : List String) : Bool :=
  match value with
  | .s s => l.contains s
  | _ => false

/-- Python `value in l` for a list of ints (Python booleans equal 0 and 1). -/
def inIntList (value : SettingValue) (l : List Int) : Bool :=
  match value with
  | .i n => l.contains n
  | .b b => l.contains (if b then 1 else 0)
  | .s _ => false

/-- Function `_validate_setting` from `device.py`: each recognised key is
checked against its local domain and the first failing check raises
`SkybellException(ERROR.INVALID_SETTING_VALUE, (setting, value))` (the
`ERROR.INVALID_SETTING_VALUE` code lives in the `helpers/errors.py` missing
from `src/`; it is carried by the `invalidSetting` exception kind). -/
def _validate_setting (setting : String) (value : SettingValue) :
    Except ReqError Unit := do
  if setting ∈ CONST.BOOL_SETTINGS ∧ ¬ inStrList value CONST.BOOL_STRINGS then
    throw (.invalidSetting setting value)
  if setting = CONST.OUTDOOR_CHIME_VOLUME ∧
      ¬ inIntList value CONST.OUTDOOR_CHIME_VALUES then
    throw (.invalidSetting setting value)
  if setting = CONST.SPEAKER_VOLUME ∧ ¬ inIntList value CONST.SPEAKER_VOLUME_VALUES then
    throw (.invalidSetting setting value)
  if setting = CONST.CHIME_FILE ∧ ¬ inStrList value CONST.CHIME_FILE_VALUES then
    throw (.invalidSetting setting value)
  if setting = CONST.OUTDOOR_CHIME_FILE ∧ ¬ inStrList value CONST.CHIME_FILE_VALUES then
    throw (.invalidSetting setting value)
  if setting = CONST.IMAGE_QUALITY ∧ ¬ inIntList value CONST.IMAGE_QUALITY_VALUES then
    throw (.invalidSetting setting value)

/-- The validation loop at the top of `SkybellDevice._async_set_setting`:
validate every pair in order, raising at the first failure. -/
def validateAll : List (String × SettingValue) → Except ReqError Unit
  | [] => .ok ()
  | (k, v) :: rest =>
    match _validate_setting k v with
    | .error e => .error e
    | .ok _ => validateAll rest

/-- Method `SkybellDevice._async_set_setting`: validate locally, then POST
the settings to the device settings endpoint; a `SkybellException` from the
request is caught and logged (leaving the device unchanged), while an
ordinary Python error propagates.  On a successful request the accepted
fragment is merged into `device_json["settings"]` in place when that key
holds a dict; when the key is absent the merge target is a fresh dict that
is immediately discarded, so the record is unchanged. -/
def _async_set_setting (settings : List (String × SettingValue)) (dev : Device)
    (cl : Client) (sc : List HttpOutcome) : Res Device :=
  match validateAll settings with
  | .error e => ⟨.error e, cl, sc, []⟩
  | .ok _ =>
    let url := strReplace CONST.DEVICE_SETTINGS_URL "$DEVID$" dev.deviceId
    let r := async_send_request_retry url cl sc
    match r.r with
    | .error .pyErr => ⟨.error .pyErr, r.cl, r.sc, r.log⟩
    | .error _ => ⟨.ok dev, r.cl, r.sc, r.log⟩
    | .ok result =>
      match getA dev.deviceJson CONST.SETTINGS with
      | some (.obj old_settings) =>
        match result with
        | .obj resObj =>
          let nj := putA dev.deviceJson CONST.SETTINGS (.obj (update old_settings resObj))
          ⟨.ok { dev with deviceJson := nj }, r.cl, r.sc, r.log⟩
        | _ => ⟨.error .pyErr, r.cl, r.sc, r.log⟩
      | some _ => ⟨.error .pyErr, r.cl, r.sc, r.log⟩
      | none =>
        match result with
        | .obj _ => ⟨.ok dev, r.cl, r.sc, r.log⟩
        | _ => ⟨.error .pyErr, r.cl, r.sc, r.log⟩

/-- The first block of `SkybellDevice.async_update`: refresh or merge the
profile.  When `get_devices` is set the profile is fetched from the
per-device endpoint (a non-dict payload makes the following merge an
uncaught Python error); then `device_json or {}` is deep-merged into the
stored record. -/
def deviceBlock1 (dev : Device) (device_json : Option Obj)
    (refresh get_devices : Bool) (cl : Client) (sc : List HttpOutcome) : Res Device :=
  if refresh || device_json.isSome || dev.deviceJson.isEmpty then
    if get_devices then
      let r := async_send_request_retry
        (strReplace CONST.DEVICE_URL "$DEVID$" dev.deviceId) cl sc
      match r.r with
      | .error e => ⟨.error e, r.cl, r.sc, r.log⟩
      | .ok (.obj fetched) =>
        ⟨.ok { dev with deviceJson := update dev.deviceJson fetched }, r.cl, r.sc, r.log⟩
      | .ok _ => ⟨.error .pyErr, r.cl, r.sc, r.log⟩
    else
      ⟨.ok { dev with deviceJson := update dev.deviceJson (device_json.getD []) },
        cl, sc, []⟩
  else ⟨.ok dev, cl, sc, []⟩

/-- The snapshot block of `SkybellDevice.async_update`: fetch the avatar
snapshot, decode and replace the cached avatar image only when the
snapshot's creation timestamp differs from the stored one (an absent stored
timestamp compares unequal to any fetched value), then replace the stored
snapshot fragment and merge `snapshot_json or {}` into it.  A payload that
is not a dict, or one missing the creation-timestamp or preview fields
where they are read, is an uncaught Python error. -/
def deviceBlock2 (dev : Device) (snapshot_json : Option Obj) (refresh : Bool)
    (cl : Client) (sc : List HttpOutcome) : Res Device :=
  if refresh || snapshot_json.isSome || dev.snapshotJson.isEmpty then
    let r := async_send_request_retry
      (strReplace CONST.DEVICE_SNAPSHOT_URL "$DEVID$" dev.deviceId) cl sc
    match r.r with
    | .error e => ⟨.error e, r.cl, r.sc, r.log⟩
    | .ok (.obj result) =>
      match getA result CONST.PREVIEW_CREATED_AT with
      | none => ⟨.error .pyErr, r.cl, r.sc, r.log⟩
      | some created =>
        let differs :=
          match getA dev.snapshotJson CONST.PREVIEW_CREATED_AT with
          | none => true
          | some prev => !(beqJ created prev)
        let snap := update result (snapshot_json.getD [])
        if differs then
          match getA result CONST.PREVIEW_IMAGE with
          | some (.str b64) =>
            ⟨.ok { dev with snapshotJson := snap, imageSnapshot := some b64 },
              r.cl, r.sc, r.log⟩
          | _ => ⟨.error .pyErr, r.cl, r.sc, r.log⟩
        else ⟨.ok { dev with snapshotJson := snap }, r.cl, r.sc, r.log⟩
    | .ok _ => ⟨.error .pyErr, r.cl, r.sc, r.log⟩
  else ⟨.ok dev, cl, sc, []⟩

/-- The trailing video fetch of `SkybellDevice._async_update_activities`:
when the latest event carries a non-empty video url, fetch the video
container metadata at `BASE_API_URL + url`; if the metadata's download url
is falsy, issue a further request to that falsy url and cache the payload
as the latest-activity image; a truthy download url leaves the cached image
untouched. -/
def activityVideoStep (dev : Device) (cl : Client) (sc : List HttpOutcome) : Res Device :=
  match latest dev.events none with
  | .error e => ⟨.error e, cl, sc, []⟩
  | .ok lat =>
    match getA lat CONST.VIDEO_URL with
    | some (.str url) =>
      if url = "" then ⟨.ok dev, cl, sc, []⟩
      else
        let r := async_send_request_retry (CONST.BASE_API_URL ++ url) cl sc
        match r.r with
        | .error e => ⟨.error e, r.cl, r.sc, r.log⟩
        | .ok (.obj meta) =>
          match (getA meta CONST.DOWNLOAD_URL).getD (.str "") with
          | .str durl =>
            if durl = "" then
              let r2 := async_send_request_retry durl r.cl r.sc
              match r2.r with
              | .error e => ⟨.error e, r2.cl, r2.sc, r.log ++ r2.log⟩
              | .ok payload =>
                ⟨.ok { dev with imageActivity := some payload },
                  r2.cl, r2.sc, r.log ++ r2.log⟩
            else ⟨.ok dev, r.cl, r.sc, r.log⟩
          | v =>
            if truthyJ v then ⟨.ok dev, r.cl, r.sc, r.log⟩
            else ⟨.error .pyErr, r.cl, r.sc, r.log⟩
        | .ok _ => ⟨.error .pyErr, r.cl, r.sc, r.log⟩
    | some v =>
      if truthyJ v then ⟨.error .pyErr, cl, sc, []⟩
      else ⟨.ok dev, cl, sc, []⟩
    | none => ⟨.ok dev, cl, sc, []⟩

/-- Method `SkybellDevice._async_update_activities`: fetch the activity
list, replace the stored activity list wholesale, fold it into the event
index, and update the latest-activity image. -/
def _async_update_activities (dev : Device) (cl : Client) (sc : List HttpOutcome) :
    Res Device :=
  let r := async_send_request_retry
    (strReplace CONST.DEVICE_ACTIVITIES_URL "$DEVID$" dev.deviceId) cl sc
  match r.r with
  | .error e => ⟨.error e, r.cl, r.sc, r.log⟩
  | .ok (.obj o) =>
    match (getA o CONST.RESPONSE_ROWS).getD (.arr []) with
    | .arr acts =>
      let folded := _async_update_events dev.events acts
      let dev2 := { dev with activities := acts, events := folded.1 }
      match folded.2 with
      | some e => ⟨.error e, r.cl, r.sc, r.log⟩
      | none =>
        let v := activityVideoStep dev2 r.cl r.sc
        ⟨v.r, v.cl, v.sc, r.log ++ v.log⟩
    | _ => ⟨.error .pyErr, r.cl, r.sc, r.log⟩
  | .ok _ => ⟨.error .pyErr, r.cl, r.sc, r.log⟩

/-- Method `SkybellDevice.async_update`: the profile block, the snapshot
block, and — only when `refresh` is true — the activities update. -/
def Device.async_update (dev : Device) (device_json : Option Obj)
    (snapshot_json : Option Obj) (refresh get_devices : Bool) (cl : Client)
    (sc : List HttpOutcome) : Res Device :=
  let b1 := deviceBlock1 dev device_json refresh get_devices cl sc
  match b1.r with
  | .error e => ⟨.error e, b1.cl, b1.sc, b1.log⟩
  | .ok dev1 =>
    let b2 := deviceBlock2 dev1 snapshot_json refresh b1.cl b1.sc
    match b2.r with
    | .error e => ⟨.error e, b2.cl, b2.sc, b1.log ++ b2.log⟩
    | .ok dev2 =>
      if refresh then
        let b3 := _async_update_activities dev2 b2.cl b2.sc
        ⟨b3.r, b3.cl, b3.sc, b1.log ++ b2.log ++ b3.log⟩
      else ⟨.ok dev2, b2.cl, b2.sc, b1.log ++ b2.log⟩

/-- Constructor `SkybellDevice.__init__`: record the profile fragment and
initialise empty activity, event, snapshot and image state (the hardware
type accessor derived from `device_settings` is a plain field read and is
not tracked). -/
def SkybellDevice_init (device_json : Obj) : Device :=
  { deviceId :=
      match getA device_json CONST.DEVICE_ID with
      | some (.str s) => s
      | _ => ""
    deviceJson := device_json
    snapshotJson := []
    activities := []
    events := []
    imageActivity := none
    imageSnapshot := none }

/-- The per-row loop of `Skybell.async_get_devices`: a row whose device id
matches an existing record triggers `device.async_update({id: row})` (with
its default `refresh=True`) on that record in place; an unmatched row
constructs a new `SkybellDevice` and registers it under its device id.  A
row that is not a dict or lacks a string device id is an uncaught Python
error. -/
def ingestRows : List JValue → Client → List HttpOutcome → Res Unit
  | [], cl, sc => ⟨.ok (), cl, sc, []⟩
  | row :: rest, cl, sc =>
    match row with
    | .obj rowObj =>
      match getA rowObj CONST.DEVICE_ID with
      | some (.str did) =>
        match getA cl.devices did with
        | some dev =>
          let u := Device.async_update dev (some [(did, .obj rowObj)]) none true false cl sc
          match u.r with
          | .error e => ⟨.error e, u.cl, u.sc, u.log⟩
          | .ok dev2 =>
            let cl2 := { u.cl with devices := putA u.cl.devices did dev2 }
            let g := ingestRows rest cl2 u.sc
            ⟨g.r, g.cl, g.sc, u.log ++ g.log⟩
        | none =>
          let device := SkybellDevice_init rowObj
          let cl2 := { cl with devices := putA cl.devices device.deviceId device }
          ingestRows rest cl2 sc
      | _ => ⟨.error .pyErr, cl, sc, []⟩
    | _ => ⟨.error .pyErr, cl, sc, []⟩

/-- Method `Skybell.async_get_devices`: when `refresh` is set or the
registry is empty, fetch the device list and ingest each row of the
response's `rows` field; always return the full registry contents. -/
def async_get_devices (refresh : Bool) (cl : Client) (sc : List HttpOutcome) :
    Res (List Device) :=
  if refresh || cl.devices.isEmpty then
    let r := async_send_request_retry CONST.DEVICES_URL cl sc
    match r.r with
    | .error e => ⟨.error e, r.cl, r.sc, r.log⟩
    | .ok (.obj o) =>
      match getA o CONST.RESPONSE_ROWS with
      | some (.arr rows) =>
        let g := ingestRows rows r.cl r.sc
        match g.r with
        | .error e => ⟨.error e, g.cl, g.sc, r.log ++ g.log⟩
        | .ok _ => ⟨.ok (g.cl.devices.map Prod.snd), g.cl, g.sc, r.log ++ g.log⟩
      | _ => ⟨.error .pyErr, r.cl, r.sc, r.log⟩
    | .ok _ => ⟨.error .pyErr, r.cl, r.sc, r.log⟩
  else ⟨.ok (cl.devices.map Prod.snd), cl, sc, []⟩

/-- The remainder of `Skybell.async_get_device` after the optional initial
list load: look the id up, fail with `SkybellException("Device not found")`
when absent, and perform a full per-device update first when `refresh` is
still set. -/
def async_get_device_rest (device_id : String) (refresh : Bool) (cl : Client)
    (sc : List HttpOutcome) (log0 : List String) : Res Device :=
  match getA cl.devices device_id with
  | none => ⟨.error (.skybell "Device not found"), cl, sc, log0⟩
  | some dev =>
    if refresh then
      let u := Device.async_update dev none none true false cl sc
      match u.r with
      | .error e => ⟨.error e, u.cl, u.sc, log0 ++ u.log⟩
      | .ok dev2 =>
        ⟨.ok dev2, { u.cl with devices := putA u.cl.devices device_id dev2 },
          u.sc, log0 ++ u.log⟩
    else ⟨.ok dev, cl, sc, log0⟩

/-- Method `Skybell.async_get_device`: when the registry is empty, load the
full device list first — any failure there surfaces as
`SkybellException("Unable to retrieve devices")`, and a successful load
clears the `refresh` flag before the lookup proceeds. -/
def async_get_device (device_id : String) (refresh : Bool) (cl : Client)
    (sc : List HttpOutcome) : Res Device :=
  if cl.devices.isEmpty then
    let g := async_get_devices false cl sc
    match g.r with
    | .error _ => ⟨.error (.skybell "Unable to retrieve devices"), g.cl, g.sc, g.log⟩
    | .ok _ => async_get_device_rest device_id false g.cl g.sc g.log
  else async_get_device_rest device_id refresh cl sc []

/-- Fixture: a successful login response body, wrapped in the conventional
`data` envelope, with the fields named by the login endpoint contract. -/
def authOkBody : JValue :=
  .obj [(CONST.RESPONSE_DATA, .obj [(CONST.AUTHENTICATION_RESULT,
    .obj [(CONST.ID_TOKEN, .str "tok"), (CONST.REFRESH_TOKEN, .str "ref"),
          (CONST.TOKEN_TYPE, .str "Bearer"), (CONST.TOKEN_EXPIRATION, .int 3600)])])]

/-- Fixture: a scripted successful login exchange. -/
def authOk : HttpOutcome := .resp 200 "application/json" authOkBody

/-- Fixture: a client holding non-empty AuthenticationMaterial and stored
credentials, with an empty device registry. -/
def clAuthed : Client :=
  { cache := [(CONST.AUTHENTICATION_RESULT,
      .obj [(CONST.ID_TOKEN, .str "tok"), (CONST.TOKEN_TYPE, .str "Bearer")])]
    username := some "user"
    password := some "pw"
    devices := []
    closeSession := true
    sessionClosed := false
    now := 0 }

/-- Fixture: the same client with its AuthenticationMaterial cleared. -/
def clNoAuth : Client :=
  { clAuthed with cache := [(CONST.AUTHENTICATION_RESULT, .obj [])] }

/-- Fixture: a device-list row for device `d1` carrying a fresh name. -/
def rowD1 : Obj := [(CONST.DEVICE_ID, .str "d1"), ("name", .str "new")]

/-- Fixture: a device-list response containing the single row `rowD1`. -/
def devicesListResp : HttpOutcome :=
  .resp 200 "application/json" (.obj [(CONST.RESPONSE_DATA,
    .obj [(CONST.RESPONSE_ROWS, .arr [.obj rowD1])])])

/-- Fixture: a snapshot response with a creation timestamp and preview. -/
def snapOk : HttpOutcome :=
  .resp 200 "application/json" (.obj [(CONST.RESPONSE_DATA,
    .obj [(CONST.PREVIEW_CREATED_AT, .str "t1"), (CONST.PREVIEW_IMAGE, .str "AAAA")])])

/-- Fixture: an activities response with an empty row list. -/
def actsEmpty : HttpOutcome :=
  .resp 200 "application/json" (.obj [(CONST.RESPONSE_DATA,
    .obj [(CONST.RESPONSE_ROWS, .arr [])])])

/-- Fixture: the profile fragment device `d1` was first created from. -/
def rowD1old : Obj := [(CONST.DEVICE_ID, .str "d1"), ("name", .str "old")]

/-- Fixture: a client whose registry already holds device `d1`. -/
def clWithDev : Client :=
  { clAuthed with devices := [("d1", SkybellDevice_init rowD1old)] }

theorem getA_putA_self {α : Type} (l : List (String × α)) (k : String) (v : α) :
    getA (putA l k v) k = some v := by
  induction l with
  | nil => simp [getA, putA]
  | cons p rest ih =>
    obtain ⟨k1, w⟩ := p
    by_cases h : k1 = k
    · simp [putA, h, getA]
    · simp [putA, h, getA, ih]

theorem getA_putA_ne {α : Type} (l : List (String × α)) (k k2 : String) (v : α)
    (h : k2 ≠ k) : getA (putA l k v) k2 = getA l k2 := by
  induction l with
  | nil => simp [getA, putA, Ne.symm h]
  | cons p rest ih =>
    obtain ⟨k1, w⟩ := p
    by_cases hk : k1 = k
    · subst hk
      simp [putA, getA, Ne.symm h]
    · by_cases h2 : k1 = k2 <;> simp [putA, getA, if_neg hk, h2, h, ih]

theorem getA_update_clear (c : List (String × JValue)) (k : String) :
    getA (update c [(k, .obj [])]) k = some (.obj []) := by
  have h1 : update c [(k, .obj [])] = update1 c k (.obj []) := rfl
  rw [h1]
  unfold update1
  generalize getA c k = g
  cases g with
  | none => simp [getA_putA_self]
  | some v => cases v <;> simp [getA_putA_self]

theorem sendRaw_log (url : String) (cl : Client) (sc : List HttpOutcome) :
    (sendRaw url cl sc).log = [url] := by
  unfold sendRaw
  cases sc.headD HttpOutcome.connFail with
  | connFail => rfl
  | resp s ct b =>
    dsimp only
    split_ifs <;> rfl

theorem sendClient_log (url : String) (cl : Client) (sc : List HttpOutcome) :
    (sendClient url cl sc).log = [url] := by
  simp only [sendClient]
  split <;> simp [sendRaw_log]

theorem async_login_count (u : String) (hu : u ≠ CONST.LOGIN_URL) (cl : Client)
    (sc : List HttpOutcome) : List.count u (async_login cl sc).log = 0 := by
  unfold async_login
  cases cl.username with
  | none => simp
  | some un =>
    cases cl.password with
    | none => simp
    | some pw =>
      dsimp only
      repeat' split
      all_goals simp [sendClient_log, List.count_singleton', hu]

theorem ensureAuth_count (u url : String) (hu : u ≠ CONST.LOGIN_URL) (cl : Client)
    (sc : List HttpOutcome) : List.count u (ensureAuth url cl sc).log = 0 := by
  simp only [ensureAuth]
  split
  · split <;> simp [async_login_count u hu]
  · simp

theorem noretry_count (u : String) (hu : u ≠ CONST.LOGIN_URL) (cl : Client)
    (sc : List HttpOutcome) :
    List.count u (async_send_request_noretry u cl sc).log ≤ 1 := by
  simp only [async_send_request_noretry]
  split
  · simp [ensureAuth_count u u hu]
  · split <;> simp [ensureAuth_count u u hu, sendRaw_log, List.count_append]

theorem retry_count (u : String) (hu : u ≠ CONST.LOGIN_URL) (cl : Client)
    (sc : List HttpOutcome) :
    List.count u (async_send_request_retry u cl sc).log ≤ 2 := by
  simp only [async_send_request_retry]
  split
  · simp [ensureAuth_count u u hu]
  · split
    · split
      · simp [ensureAuth_count u u hu, sendRaw_log, async_login_count u hu,
          List.count_append]
      · have hn := noretry_count u hu
          (async_login (sendRaw u (ensureAuth u cl sc).cl (ensureAuth u cl sc).sc).cl
            (sendRaw u (ensureAuth u cl sc).cl (ensureAuth u cl sc).sc).sc).cl
          (async_login (sendRaw u (ensureAuth u cl sc).cl (ensureAuth u cl sc).sc).cl
            (sendRaw u (ensureAuth u cl sc).cl (ensureAuth u cl sc).sc).sc).sc
        simp [ensureAuth_count u u hu, sendRaw_log, async_login_count u hu,
          List.count_append]
        omega
    · simp [ensureAuth_count u u hu, sendRaw_log, List.count_append]

theorem ensureAuth_skip (url : String) (cl : Client) (sc : List HttpOutcome)
    (h : lenJ (cache cl CONST.AUTHENTICATION_RESULT) ≠ 0) :
    ensureAuth url cl sc = ⟨.ok (), cl, sc, []⟩ := by
  simp [ensureAuth, h]

theorem sendRaw_401 (url ct : String) (b : JValue) (cl : Client)
    (rest : List HttpOutcome) :
    sendRaw url cl (.resp 401 ct b :: rest) =
      ⟨.error .authentication,
        async_update_cache cl [(CONST.AUTHENTICATION_RESULT, .obj [])], rest, [url]⟩ := by
  simp [sendRaw]

theorem sendRaw_login403 (ct : String) (b : JValue) (cl : Client)
    (rest : List HttpOutcome) :
    sendRaw CONST.LOGIN_URL cl (.resp 403 ct b :: rest) =
      ⟨.error .authentication,
        async_update_cache cl [(CONST.AUTHENTICATION_RESULT, .obj [])], rest,
        [CONST.LOGIN_URL]⟩ := by
  simp [sendRaw]

theorem sendRaw_client_status (url ct : String) (s : Nat) (b : JValue) (cl : Client)
    (rest : List HttpOutcome) (h4 : 400 ≤ s) (h400 : s ≠ 400) (h401 : s ≠ 401)
    (h403 : s ≠ 403) (h404 : s ≠ 404) :
    sendRaw url cl (.resp s ct b :: rest) = ⟨.error .clientError, cl, rest, [url]⟩ := by
  simp [sendRaw, h4, h400, h401, h403, h404]

theorem sendRaw_ok (url ct : String) (s : Nat) (b : JValue) (cl : Client)
    (rest : List HttpOutcome) (h : s < 400) :
    sendRaw url cl (.resp s ct b :: rest) =
      ⟨.ok (parseResponse ct b), cl, rest, [url]⟩ := by
  have h401 : s ≠ 401 := by omega
  have h403 : s ≠ 403 := by omega
  have h404 : s ≠ 404 := by omega
  have h400 : s ≠ 400 := by omega
  have h4 : ¬ 400 ≤ s := by omega
  simp [sendRaw, h4, h400, h401, h403, h404]

theorem getA_update_obj (c : List (String × JValue)) (k : String)
    (m : List (String × JValue)) (h : getA c k = some (.obj []))
    (hm : m.isEmpty = false) :
    getA (update c [(k, .obj m)]) k = some (.obj (update [] m)) := by
  have h1 : update c [(k, .obj m)] = update1 c k (.obj m) := rfl
  rw [h1]
  unfold update1
  rw [h]
  simp [hm, getA_putA_self]

/-- Fixture: the AuthenticationMaterial stored by a login that consumed the
`authOk` exchange, including the computed expiration instant. -/
def authResFull (now : Int) : Obj :=
  putA [(CONST.ID_TOKEN, .str "tok"), (CONST.REFRESH_TOKEN, .str "ref"),
        (CONST.TOKEN_TYPE, .str "Bearer"), (CONST.TOKEN_EXPIRATION, .int 3600)]
    CONST.EXPIRATION_DATE
    (.int (calculate_expiration 3600 CONST.EXPIRATION_SLACK CONST.REFRESH_CYCLE now))

theorem async_login_authOk (cl : Client) (rest : List HttpOutcome) (un pw : String)
    (hu : cl.username = some un) (hp : cl.password = some pw) :
    (async_login cl (authOk :: rest)).r = .ok true ∧
    (async_login cl (authOk :: rest)).sc = rest ∧
    (async_login cl (authOk :: rest)).log = [CONST.LOGIN_URL] ∧
    lenJ (cache (async_login cl (authOk :: rest)).cl CONST.AUTHENTICATION_RESULT) = 5 := by
  unfold async_login
  rw [hu, hp]
  refine ⟨rfl, rfl, rfl, ?_⟩
  have hcl : getA (update cl.cache [(CONST.AUTHENTICATION_RESULT, JValue.obj [])])
      CONST.AUTHENTICATION_RESULT = some (.obj []) :=
    getA_update_clear cl.cache CONST.AUTHENTICATION_RESULT
  show lenJ (cache (async_update_cache
      (async_update_cache cl [(CONST.AUTHENTICATION_RESULT, .obj [])])
      [(CONST.AUTHENTICATION_RESULT, .obj (authResFull cl.now))])
      CONST.AUTHENTICATION_RESULT) = 5
  unfold cache async_update_cache
  dsimp only
  rw [getA_update_obj _ _ (authResFull cl.now) hcl rfl]
  rfl

/-- The event types carried by the well-formed members of an activity list. -/
def eventTypesOf (acts : List JValue) : List String :=
  acts.filterMap (fun a =>
    match a with
    | .obj act =>
      match getA act CONST.EVENT_TYPE with
      | some (.str t) => some t
      | _ => none
    | _ => none)

theorem eventTypesOf_cons_obj (act : Obj) (rest : List JValue) (et : String)
    (hty : getA act CONST.EVENT_TYPE = some (.str et)) :
    eventTypesOf (.obj act :: rest) = et :: eventTypesOf rest := by
  simp [eventTypesOf, List.filterMap_cons, hty]

theorem updateEvents_retain (acts : List JValue) (ev : List (String × Obj)) (t : String)
    (h : t ∉ eventTypesOf acts) :
    getA (_async_update_events ev acts).1 t = getA ev t := by
  induction acts generalizing ev with
  | nil => rfl
  | cons a rest ih =>
    cases a with
    | obj act =>
      cases hty : getA act CONST.EVENT_TYPE with
      | none => simp [_async_update_events, hty]
      | some tv =>
        cases tv with
        | str et =>
          rw [eventTypesOf_cons_obj act rest et hty] at h
          have hne : t ≠ et := fun hEq => h (hEq ▸ List.mem_cons_self et _)
          have ht2 : t ∉ eventTypesOf rest := fun hm => h (List.mem_cons_of_mem et hm)
          cases htime : getA act CONST.EVENT_TIME with
          | none => simp [_async_update_events, hty, htime]
          | some time =>
            cases hev : getA ev et with
            | none =>
              simp [_async_update_events, hty, htime, hev, ih _ ht2,
                getA_putA_ne ev et t act hne]
            | some old =>
              by_cases hemp : old.isEmpty
              · simp [_async_update_events, hty, htime, hev, hemp, ih _ ht2,
                  getA_putA_ne ev et t act hne]
              · cases hot : getA old CONST.EVENT_TIME with
                | none => simp [_async_update_events, hty, htime, hev, hemp, hot]
                | some oldTime =>
                  cases hge : jGe time oldTime with
                  | none => simp [_async_update_events, hty, htime, hev, hemp, hot, hge]
                  | some gb =>
                    cases gb with
                    | true =>
                      simp [_async_update_events, hty, htime, hev, hemp, hot, hge,
                        ih _ ht2, getA_putA_ne ev et t act hne]
                    | false =>
                      simp [_async_update_events, hty, htime, hev, hemp, hot, hge,
                        ih _ ht2]
        | int n => simp [_async_update_events, hty]
        | bool b => simp [_async_update_events, hty]
        | obj o => simp [_async_update_events, hty]
        | arr l => simp [_async_update_events, hty]
        | bytes s => simp [_async_update_events, hty]
        | time s => simp [_async_update_events, hty]
    | str s => simp [_async_update_events]
    | int n => simp [_async_update_events]
    | bool b => simp [_async_update_events]
    | arr l => simp [_async_update_events]
    | bytes s => simp [_async_update_events]
    | time s => simp [_async_update_events]

theorem latestLoop_mem (evs : List Obj) (acc : Obj) (accd : Option JValue) (res : Obj)
    (h : latestLoop evs acc accd = .ok res) : res = acc ∨ res ∈ evs := by
  induction evs generalizing acc accd with
  | nil =>
    simp [latestLoop] at h
    exact Or.inl h.symm
  | cons e rest ih =>
    unfold latestLoop at h
    cases hd : getA e CONST.EVENT_TIME with
    | none => rw [hd] at h; simp at h
    | some date =>
      rw [hd] at h
      dsimp only at h
      by_cases hemp : acc.isEmpty
      · rw [if_pos hemp] at h
        rcases ih _ _ h with h1 | h1
        · exact Or.inr (h1 ▸ List.mem_cons_self e rest)
        · exact Or.inr (List.mem_cons_of_mem e h1)
      · rw [if_neg hemp] at h
        cases accd with
        | none =>
          dsimp only at h
          rcases ih _ _ h with h1 | h1
          · exact Or.inr (h1 ▸ List.mem_cons_self e rest)
          · exact Or.inr (List.mem_cons_of_mem e h1)
        | some a =>
          cases hlt : jLt a date with
          | none => simp [hlt] at h
          | some b =>
            simp only [hlt] at h
            cases b with
            | true =>
              rcases ih _ _ h with h1 | h1
              · exact Or.inr (h1 ▸ List.mem_cons_self e rest)
              · exact Or.inr (List.mem_cons_of_mem e h1)
            | false =>
              rcases ih _ _ h with h1 | h1
              · exact Or.inl h1
              · exact Or.inr (List.mem_cons_of_mem e h1)

/-- Fixture: an indexed doorbell activity from an earlier ingest. -/
def dbAct : Obj :=
  [(CONST.EVENT_TYPE, .str "application:on-doorbell"), (CONST.EVENT_TIME, .str "t5")]

/-- Fixture: a motion activity arriving in a fresh fetch. -/
def motionAct : Obj :=
  [(CONST.EVENT_TYPE, .str "device:sensor:motion"), (CONST.EVENT_TIME, .str "t9")]

/-- C1 counterexample: ingesting a fresh activity list containing only a
motion event over an index holding a doorbell entry retains the doorbell
entry, so the resulting index differs from the fold of the incoming list
alone — refuting both "equals exactly the result of folding the incoming
list alone" and "entries for event types not present in the incoming list
are not retained". -/
theorem C1_counterexample_stale_type_retained :
    (_async_update_events [("application:on-doorbell", dbAct)] [.obj motionAct]).1
      = [("application:on-doorbell", dbAct), ("device:sensor:motion", motionAct)] ∧
    (_async_update_events [] [.obj motionAct]).1
      = [("device:sensor:motion", motionAct)] ∧
    getA (_async_update_events [("application:on-doorbell", dbAct)] [.obj motionAct]).1
      "application:on-doorbell" = some dbAct := ⟨rfl, rfl, rfl⟩

/-- C1 amended: when a fresh activity list is ingested, the event index is
updated in place by folding the incoming list over the existing index: for
each incoming activity the per-type entry is replaced iff no (or an empty)
entry exists for its event type or the incoming event time compares `>=`
the stored entry's event time (last-write-wins on equal timestamps), and
entries for event types not present in the incoming list are retained
unchanged from previous ingests.  The third conjunct checks the spec's own
worked example. -/
theorem C1_amended_event_index_update :
    (∀ (ev : List (String × Obj)) (acts : List JValue) (t : String),
      t ∉ eventTypesOf acts →
      getA (_async_update_events ev acts).1 t = getA ev t) ∧
    (∀ (ev : List (String × Obj)) (act : Obj) (et : String) (time : JValue),
      getA act CONST.EVENT_TYPE = some (.str et) →
      getA act CONST.EVENT_TIME = some time →
      (getA ev et = none →
        _async_update_events ev [.obj act] = (putA ev et act, none)) ∧
      (∀ (old : Obj) (oldTime : JValue) (ge : Bool),
        getA ev et = some old → old.isEmpty = false →
        getA old CONST.EVENT_TIME = some oldTime → jGe time oldTime = some ge →
        _async_update_events ev [.obj act] =
          (if ge then putA ev et act else ev, none))) ∧
    _async_update_events []
      [.obj [(CONST.EVENT_TYPE, .str "motion"), (CONST.EVENT_TIME, .int 10)],
       .obj [(CONST.EVENT_TYPE, .str "motion"), (CONST.EVENT_TIME, .int 5)],
       .obj [(CONST.EVENT_TYPE, .str "doorbell"), (CONST.EVENT_TIME, .int 8)]]
      = ([("motion", [(CONST.EVENT_TYPE, .str "motion"), (CONST.EVENT_TIME, .int 10)]),
          ("doorbell", [(CONST.EVENT_TYPE, .str "doorbell"), (CONST.EVENT_TIME, .int 8)])],
        none) := by
  refine ⟨fun ev acts t h => updateEvents_retain acts ev t h, ?_, rfl⟩
  intro ev act et time hty htime
  constructor
  · intro hno
    simp [_async_update_events, hty, htime, hno]
  · intro old oldTime ge hsome hemp hot hge
    cases ge <;> simp [_async_update_events, hty, htime, hsome, hemp, hot, hge]

/-- C1 witness: the amended statement applied at the doorbell/motion
fixtures. -/
theorem C1_amended_event_index_update_witness :
    getA (_async_update_events [("application:on-doorbell", dbAct)]
        [.obj motionAct]).1 "application:on-doorbell"
      = getA [("application:on-doorbell", dbAct)] "application:on-doorbell" ∧
    _async_update_events [("application:on-doorbell", dbAct)] [.obj motionAct]
      = (putA [("application:on-doorbell", dbAct)] "device:sensor:motion" motionAct,
         none) := by
  constructor
  · exact C1_amended_event_index_update.1 [("application:on-doorbell", dbAct)]
      [.obj motionAct] "application:on-doorbell" (by decide)
  · exact (C1_amended_event_index_update.2.1 [("application:on-doorbell", dbAct)]
      motionAct "device:sensor:motion" (.str "t9") rfl rfl).1 rfl

/-- C2 counterexample: a 500-status response with `allowRetry=true` does not
fail with TransportError — `raise_for_status` raises a `ClientError`
subclass, so the re-login-and-retry path runs for this HTTP status response
and the call succeeds with the retried payload, refuting both halves of the
claim. -/
theorem C2_counterexample_500_retried :
    (async_send_request true CONST.USER_URL clAuthed
      [.resp 500 "application/json" (.obj []), authOk,
       .resp 200 "application/json" (.obj [(CONST.RESPONSE_DATA, .str "payload")])]).r
      = .ok (.str "payload") ∧
    (async_send_request true CONST.USER_URL clAuthed
      [.resp 500 "application/json" (.obj []), authOk,
       .resp 200 "application/json" (.obj [(CONST.RESPONSE_DATA, .str "payload")])]).log
      = [CONST.USER_URL, CONST.LOGIN_URL, CONST.USER_URL] := ⟨rfl, rfl⟩

/-- C2 amended: a response status of at least 400 other than 400, 401, 403
and 404 raises the same `ClientError` as a connection failure, so with
`allowRetry=false` the request fails with TransportError, while with
`allowRetry=true` the single re-login-and-retry path is taken for this HTTP
status response exactly as for a connection failure; a non-2xx status below
400 is not a failure at all and parses as success. -/
theorem C2_amended_status_handling :
    (∀ (url ct : String) (s : Nat) (b : JValue) (cl : Client)
      (rest : List HttpOutcome),
      400 ≤ s → s ≠ 400 → s ≠ 401 → s ≠ 403 → s ≠ 404 →
      lenJ (cache cl CONST.AUTHENTICATION_RESULT) ≠ 0 →
      (async_send_request false url cl (.resp s ct b :: rest)).r = .error (.skybell "") ∧
      (async_send_request false url cl (.resp s ct b :: rest)).log = [url]) ∧
    (∀ (url ct : String) (s : Nat) (b v : JValue) (cl : Client)
      (rest : List HttpOutcome) (un pw : String),
      400 ≤ s → s ≠ 400 → s ≠ 401 → s ≠ 403 → s ≠ 404 →
      lenJ (cache cl CONST.AUTHENTICATION_RESULT) ≠ 0 →
      cl.username = some un → cl.password = some pw →
      (async_send_request true url cl (.resp s ct b :: authOk ::
        .resp 200 "application/json" (.obj [(CONST.RESPONSE_DATA, v)]) :: rest)).r
        = .ok v ∧
      (async_send_request true url cl (.resp s ct b :: authOk ::
        .resp 200 "application/json" (.obj [(CONST.RESPONSE_DATA, v)]) :: rest)).log
        = [url, CONST.LOGIN_URL, url]) ∧
    (∀ (url ct : String) (s : Nat) (b : JValue) (cl : Client)
      (rest : List HttpOutcome),
      300 ≤ s → s < 400 →
      lenJ (cache cl CONST.AUTHENTICATION_RESULT) ≠ 0 →
      (async_send_request false url cl (.resp s ct b :: rest)).r
        = .ok (parseResponse ct b)) := by
  refine ⟨?_, ?_, ?_⟩
  · intro url ct s b cl rest h4 h400 h401 h403 h404 hAuth
    simp only [async_send_request, Bool.false_eq_true, if_false,
      async_send_request_noretry]
    rw [ensureAuth_skip url cl _ hAuth]
    dsimp only
    rw [sendRaw_client_status url ct s b cl rest h4 h400 h401 h403 h404]
    exact ⟨rfl, rfl⟩
  · intro url ct s b v cl rest un pw h4 h400 h401 h403 h404 hAuth hun hpw
    have hl := async_login_authOk cl
      (.resp 200 "application/json" (.obj [(CONST.RESPONSE_DATA, v)]) :: rest)
      un pw hun hpw
    simp only [async_send_request, if_true, async_send_request_retry]
    rw [ensureAuth_skip url cl _ hAuth]
    dsimp only
    rw [sendRaw_client_status url ct s b cl _ h4 h400 h401 h403 h404]
    dsimp only
    rw [hl.1]
    dsimp only
    rw [hl.2.1]
    have hA2 : lenJ (cache (async_login cl (authOk ::
        .resp 200 "application/json" (.obj [(CONST.RESPONSE_DATA, v)]) :: rest)).cl
        CONST.AUTHENTICATION_RESULT) ≠ 0 := by
      rw [hl.2.2.2]
      omega
    simp only [async_send_request_noretry]
    rw [ensureAuth_skip url _ _ hA2]
    dsimp only
    rw [sendRaw_ok url "application/json" 200 (.obj [(CONST.RESPONSE_DATA, v)]) _ rest
      (by omega)]
    dsimp only
    constructor
    · show Except.ok (parseResponse "application/json" (.obj [(CONST.RESPONSE_DATA, v)]))
        = Except.ok v
      simp [parseResponse, getA]
    · rw [hl.2.2.1]
      rfl
  · intro url ct s b cl rest h3 h4 hAuth
    simp only [async_send_request, Bool.false_eq_true, if_false,
      async_send_request_noretry]
    rw [ensureAuth_skip url cl _ hAuth]
    dsimp only
    rw [sendRaw_ok url ct s b cl rest h4]

/-- C2 witness: the amended statement applied at status 500 on the user
endpoint with the authenticated fixture client. -/
theorem C2_amended_status_handling_witness :
    ((async_send_request false CONST.USER_URL clAuthed
        [.resp 500 "text/plain" (.str "boom")]).r = .error (.skybell "") ∧
      (async_send_request false CONST.USER_URL clAuthed
        [.resp 500 "text/plain" (.str "boom")]).log = [CONST.USER_URL]) ∧
    ((async_send_request true CONST.USER_URL clAuthed
        [.resp 500 "text/plain" (.str "boom"), authOk,
         .resp 200 "application/json" (.obj [(CONST.RESPONSE_DATA, .str "p")]) ]).r
        = .ok (.str "p")) ∧
    (async_send_request false CONST.USER_URL clAuthed
        [.resp 304 "application/json" (.obj [(CONST.RESPONSE_DATA, .str "cached")])]).r
      = .ok (parseResponse "application/json"
          (.obj [(CONST.RESPONSE_DATA, .str "cached")])) := by
  refine ⟨C2_amended_status_handling.1 CONST.USER_URL "text/plain" 500 (.str "boom")
      clAuthed [] (by omega) (by omega) (by omega) (by omega) (by omega)
      (by decide), ?_, ?_⟩
  · exact (C2_amended_status_handling.2.1 CONST.USER_URL "text/plain" 500 (.str "boom")
      (.str "p") clAuthed [] "user" "pw" (by omega) (by omega) (by omega) (by omega)
      (by omega) (by decide) rfl rfl).1
  · exact C2_amended_status_handling.2.2 CONST.USER_URL "application/json" 304
      (.obj [(CONST.RESPONSE_DATA, .str "cached")]) clAuthed [] (by omega) (by omega)
      (by decide)

theorem sendRaw_connFail (url : String) (cl : Client) (rest : List HttpOutcome) :
    sendRaw url cl (.connFail :: rest) = ⟨.error .clientError, cl, rest, [url]⟩ := rfl

theorem async_login_connFail (cl : Client) (rest : List HttpOutcome) (un pw : String)
    (hu : cl.username = some un) (hp : cl.password = some pw) :
    async_login cl (.connFail :: rest) =
      ⟨.error (.skybell ""),
        async_update_cache cl [(CONST.AUTHENTICATION_RESULT, .obj [])], rest,
        [CONST.LOGIN_URL]⟩ := by
  unfold async_login
  rw [hu, hp]
  rfl

/-- C3 counterexample: with `allowRetry=true` and a connection failure on
the first attempt, a connection failure during the triggered login
propagates out of the login call, so the claimed retry of the same request
never happens — the original URL is requested exactly once, refuting
"triggers exactly one login attempt and one retry of the same request". -/
theorem C3_counterexample_no_retry_after_failed_login :
    (async_send_request true CONST.USER_URL clAuthed [.connFail, .connFail]).r
      = .error (.skybell "") ∧
    (async_send_request true CONST.USER_URL clAuthed [.connFail, .connFail]).log
      = [CONST.USER_URL, CONST.LOGIN_URL] ∧
    List.count CONST.USER_URL
      (async_send_request true CONST.USER_URL clAuthed [.connFail, .connFail]).log
      = 1 := by
  exact ⟨rfl, rfl, by decide⟩

/-- C3 amended: with `allowRetry=true`, a connection failure on the first
attempt triggers exactly one login attempt; when that login succeeds,
exactly one retry of the same request follows with `allowRetry=false` — a
successful retry returns its result, a second connection failure surfaces
TransportError — while a login that itself fails with a connection error
surfaces that TransportError with no retry of the original request; in
every case the original URL is requested at most twice. -/
theorem C3_amended_single_retry :
    (∀ (url : String) (v : JValue) (cl : Client) (rest : List HttpOutcome)
      (un pw : String),
      lenJ (cache cl CONST.AUTHENTICATION_RESULT) ≠ 0 →
      cl.username = some un → cl.password = some pw →
      (async_send_request true url cl (.connFail :: authOk ::
        .resp 200 "application/json" (.obj [(CONST.RESPONSE_DATA, v)]) :: rest)).r
        = .ok v ∧
      (async_send_request true url cl (.connFail :: authOk ::
        .resp 200 "application/json" (.obj [(CONST.RESPONSE_DATA, v)]) :: rest)).log
        = [url, CONST.LOGIN_URL, url]) ∧
    (∀ (url : String) (cl : Client) (rest : List HttpOutcome) (un pw : String),
      lenJ (cache cl CONST.AUTHENTICATION_RESULT) ≠ 0 →
      cl.username = some un → cl.password = some pw →
      (async_send_request true url cl (.connFail :: authOk :: .connFail :: rest)).r
        = .error (.skybell "") ∧
      (async_send_request true url cl (.connFail :: authOk :: .connFail :: rest)).log
        = [url, CONST.LOGIN_URL, url]) ∧
    (∀ (url : String) (cl : Client) (rest : List HttpOutcome) (un pw : String),
      lenJ (cache cl CONST.AUTHENTICATION_RESULT) ≠ 0 →
      cl.username = some un → cl.password = some pw →
      (async_send_request true url cl (.connFail :: .connFail :: rest)).r
        = .error (.skybell "") ∧
      (async_send_request true url cl (.connFail :: .connFail :: rest)).log
        = [url, CONST.LOGIN_URL]) ∧
    (∀ (url : String) (cl : Client) (sc : List HttpOutcome),
      url ≠ CONST.LOGIN_URL →
      List.count url (async_send_request true url cl sc).log ≤ 2) := by
  refine ⟨?_, ?_, ?_, ?_⟩
  · intro url v cl rest un pw hAuth hun hpw
    have hl := async_login_authOk cl
      (.resp 200 "application/json" (.obj [(CONST.RESPONSE_DATA, v)]) :: rest)
      un pw hun hpw
    simp only [async_send_request, if_true, async_send_request_retry]
    rw [ensureAuth_skip url cl _ hAuth]
    dsimp only
    rw [sendRaw_connFail url cl _]
    dsimp only
    rw [hl.1]
    dsimp only
    rw [hl.2.1]
    have hA2 : lenJ (cache (async_login cl (authOk ::
        .resp 200 "application/json" (.obj [(CONST.RESPONSE_DATA, v)]) :: rest)).cl
        CONST.AUTHENTICATION_RESULT) ≠ 0 := by
      rw [hl.2.2.2]
      omega
    simp only [async_send_request_noretry]
    rw [ensureAuth_skip url _ _ hA2]
    dsimp only
    rw [sendRaw_ok url "application/json" 200 (.obj [(CONST.RESPONSE_DATA, v)]) _ rest
      (by omega)]
    dsimp only
    constructor
    · show Except.ok (parseResponse "application/json" (.obj [(CONST.RESPONSE_DATA, v)]))
        = Except.ok v
      simp [parseResponse, getA]
    · rw [hl.2.2.1]
      rfl
  · intro url cl rest un pw hAuth hun hpw
    have hl := async_login_authOk cl (.connFail :: rest) un pw hun hpw
    simp only [async_send_request, if_true, async_send_request_retry]
    rw [ensureAuth_skip url cl _ hAuth]
    dsimp only
    rw [sendRaw_connFail url cl _]
    dsimp only
    rw [hl.1]
    dsimp only
    rw [hl.2.1]
    have hA2 : lenJ (cache (async_login cl (authOk :: .connFail :: rest)).cl
        CONST.AUTHENTICATION_RESULT) ≠ 0 := by
      rw [hl.2.2.2]
      omega
    simp only [async_send_request_noretry]
    rw [ensureAuth_skip url _ _ hA2]
    dsimp only
    rw [sendRaw_connFail url _ rest]
    dsimp only
    constructor
    · rfl
    · rw [hl.2.2.1]
      rfl
  · intro url cl rest un pw hAuth hun hpw
    simp only [async_send_request, if_true, async_send_request_retry]
    rw [ensureAuth_skip url cl _ hAuth]
    dsimp only
    rw [sendRaw_connFail url cl _]
    dsimp only
    rw [async_login_connFail cl rest un pw hun hpw]
    exact ⟨rfl, rfl⟩
  · intro url cl sc h
    exact retry_count url h cl sc

/-- C3 witness: the amended statement applied at the user endpoint with the
authenticated fixture client. -/
theorem C3_amended_single_retry_witness :
    (async_send_request true CONST.USER_URL clAuthed
      [.connFail, authOk,
       .resp 200 "application/json" (.obj [(CONST.RESPONSE_DATA, .str "p")])]).r
      = .ok (.str "p") ∧
    (async_send_request true CONST.USER_URL clAuthed
      [.connFail, authOk, .connFail]).log = [CONST.USER_URL, CONST.LOGIN_URL,
        CONST.USER_URL] ∧
    List.count CONST.USER_URL
      (async_send_request true CONST.USER_URL clAuthed [.connFail, .connFail]).log
      ≤ 2 := by
  refine ⟨?_, ?_, ?_⟩
  · exact (C3_amended_single_retry.1 CONST.USER_URL (.str "p") clAuthed [] "user" "pw"
      (by decide) rfl rfl).1
  · exact (C3_amended_single_retry.2.1 CONST.USER_URL clAuthed [] "user" "pw"
      (by decide) rfl rfl).2
  · exact C3_amended_single_retry.2.2.2 CONST.USER_URL clAuthed [.connFail, .connFail]
      (by decide)

/-- C4 counterexample: a JSON object body without a `data` field is not
returned as-is — send yields an empty object in its place. -/
theorem C4_counterexample_missing_data_envelope :
    (async_send_request false CONST.USER_URL clAuthed
      [.resp 200 "application/json" (.obj [("x", .int 1)])]).r = .ok (.obj []) ∧
    ((JValue.obj [] : JValue) = .obj [("x", .int 1)] → False) := by
  refine ⟨rfl, ?_⟩
  intro h
  simp at h

/-- C4 amended: on a successful response, a JSON object body is unwrapped by
extracting the `data` envelope field when present, and replaced by an empty
object when that field is absent (not returned as-is); a JSON body that is
not an object, and any non-JSON body, is returned unmodified. -/
theorem C4_amended_parse :
    (∀ (fields : List (String × JValue)) (v : JValue),
      getA fields CONST.RESPONSE_DATA = some v →
      parseResponse "application/json" (.obj fields) = v) ∧
    (∀ (fields : List (String × JValue)),
      getA fields CONST.RESPONSE_DATA = none →
      parseResponse "application/json" (.obj fields) = .obj []) ∧
    (∀ (b : JValue), (∀ fields, b ≠ .obj fields) →
      parseResponse "application/json" b = b) ∧
    (∀ (ct : String) (b : JValue), ct ≠ "application/json" → parseResponse ct b = b) ∧
    (∀ (url ct : String) (b : JValue) (cl : Client) (rest : List HttpOutcome),
      lenJ (cache cl CONST.AUTHENTICATION_RESULT) ≠ 0 →
      (async_send_request false url cl (.resp 200 ct b :: rest)).r
        = .ok (parseResponse ct b)) := by
  refine ⟨?_, ?_, ?_, ?_, ?_⟩
  · intro fields v h
    simp [parseResponse, h]
  · intro fields h
    simp [parseResponse, h]
  · intro b h
    cases b with
    | obj fields => exact absurd rfl (h fields)
    | str s => simp [parseResponse]
    | int n => simp [parseResponse]
    | bool v => simp [parseResponse]
    | arr l => simp [parseResponse]
    | bytes s => simp [parseResponse]
    | time s => simp [parseResponse]
  · intro ct b h
    simp [parseResponse, h]
  · intro url ct b cl rest hAuth
    simp only [async_send_request, Bool.false_eq_true, if_false,
      async_send_request_noretry]
    rw [ensureAuth_skip url cl _ hAuth]
    dsimp only
    rw [sendRaw_ok url ct 200 b cl rest (by omega)]

/-- C4 witness: the amended statement applied at concrete bodies. -/
theorem C4_amended_parse_witness :
    parseResponse "application/json" (.obj [(CONST.RESPONSE_DATA, .str "x")]) = .str "x" ∧
    parseResponse "application/json" (.obj [("x", .int 1)]) = .obj [] ∧
    parseResponse "application/json" (.arr [.int 1]) = .arr [.int 1] ∧
    parseResponse "video/mp4" (.bytes "vid") = .bytes "vid" ∧
    (async_send_request false CONST.USER_URL clAuthed
      [.resp 200 "video/mp4" (.bytes "vid")]).r
      = .ok (parseResponse "video/mp4" (.bytes "vid")) := by
  refine ⟨?_, ?_, ?_, ?_, ?_⟩
  · exact C4_amended_parse.1 [(CONST.RESPONSE_DATA, .str "x")] (.str "x") rfl
  · exact C4_amended_parse.2.1 [("x", .int 1)] rfl
  · exact C4_amended_parse.2.2.1 (.arr [.int 1]) (by intro fields h; cases h)
  · exact C4_amended_parse.2.2.2.1 "video/mp4" (.bytes "vid") (by decide)
  · exact C4_amended_parse.2.2.2.2 CONST.USER_URL "video/mp4" (.bytes "vid") clAuthed []
      (by decide)

/-- C5: a 401 response on any request — or a 403 on the login endpoint —
clears the stored AuthenticationMaterial and fails with
AuthenticationFailed; and a subsequent send to a non-login endpoint with
empty AuthenticationMaterial performs exactly one implicit login before the
request itself is issued (the log shows exactly one login request followed
by the original request). -/
theorem C5_auth_clear_and_implicit_login :
    (∀ (url ct : String) (b : JValue) (cl : Client) (rest : List HttpOutcome)
      (retry : Bool),
      lenJ (cache cl CONST.AUTHENTICATION_RESULT) ≠ 0 →
      (async_send_request retry url cl (.resp 401 ct b :: rest)).r
        = .error .authentication ∧
      cache (async_send_request retry url cl (.resp 401 ct b :: rest)).cl
        CONST.AUTHENTICATION_RESULT = .obj []) ∧
    (∀ (ct : String) (b : JValue) (cl : Client) (rest : List HttpOutcome)
      (retry : Bool),
      (async_send_request retry CONST.LOGIN_URL cl (.resp 403 ct b :: rest)).r
        = .error .authentication ∧
      cache (async_send_request retry CONST.LOGIN_URL cl (.resp 403 ct b :: rest)).cl
        CONST.AUTHENTICATION_RESULT = .obj []) ∧
    (∀ (url : String) (cl : Client) (rest : List HttpOutcome) (un pw : String),
      lenJ (cache cl CONST.AUTHENTICATION_RESULT) = 0 →
      url ≠ CONST.LOGIN_URL →
      cl.username = some un → cl.password = some pw →
      (async_send_request false url cl (authOk :: rest)).log
        = [CONST.LOGIN_URL, url]) := by
  refine ⟨?_, ?_, ?_⟩
  · intro url ct b cl rest retry hAuth
    have hclear : cache (async_update_cache cl
        [(CONST.AUTHENTICATION_RESULT, .obj [])]) CONST.AUTHENTICATION_RESULT
        = .obj [] := by
      unfold cache async_update_cache
      dsimp only
      rw [getA_update_clear]
      rfl
    cases retry with
    | false =>
      simp only [async_send_request, Bool.false_eq_true, if_false,
        async_send_request_noretry]
      rw [ensureAuth_skip url cl _ hAuth]
      dsimp only
      rw [sendRaw_401 url ct b cl rest]
      exact ⟨rfl, hclear⟩
    | true =>
      simp only [async_send_request, if_true, async_send_request_retry]
      rw [ensureAuth_skip url cl _ hAuth]
      dsimp only
      rw [sendRaw_401 url ct b cl rest]
      exact ⟨rfl, hclear⟩
  · intro ct b cl rest retry
    have hskip : ensureAuth CONST.LOGIN_URL cl (.resp 403 ct b :: rest)
        = ⟨.ok (), cl, .resp 403 ct b :: rest, []⟩ := by
      simp [ensureAuth]
    have hclear : cache (async_update_cache cl
        [(CONST.AUTHENTICATION_RESULT, .obj [])]) CONST.AUTHENTICATION_RESULT
        = .obj [] := by
      unfold cache async_update_cache
      dsimp only
      rw [getA_update_clear]
      rfl
    cases retry with
    | false =>
      simp only [async_send_request, Bool.false_eq_true, if_false,
        async_send_request_noretry]
      rw [hskip]
      dsimp only
      rw [sendRaw_login403 ct b cl rest]
      exact ⟨rfl, hclear⟩
    | true =>
      simp only [async_send_request, if_true, async_send_request_retry]
      rw [hskip]
      dsimp only
      rw [sendRaw_login403 ct b cl rest]
      exact ⟨rfl, hclear⟩
  · intro url cl rest un pw hAuth hurl hun hpw
    have hl := async_login_authOk cl rest un pw hun hpw
    simp only [async_send_request, Bool.false_eq_true, if_false,
      async_send_request_noretry, ensureAuth]
    rw [if_pos ⟨hAuth, hurl⟩]
    rw [hl.1]
    dsimp only
    rw [hl.2.1, hl.2.2.1]
    split <;> simp [sendRaw_log]

/-- C5 witness: the statement applied to a 401 on the user endpoint, a 403
on the login endpoint, and an implicit login on the cleared fixture
client. -/
theorem C5_auth_clear_and_implicit_login_witness :
    (async_send_request true CONST.USER_URL clAuthed
      [.resp 401 "text/plain" (.str "denied")]).r = .error .authentication ∧
    cache (async_send_request true CONST.USER_URL clAuthed
      [.resp 401 "text/plain" (.str "denied")]).cl CONST.AUTHENTICATION_RESULT
      = .obj [] ∧
    (async_send_request false CONST.LOGIN_URL clAuthed
      [.resp 403 "text/plain" (.str "denied")]).r = .error .authentication ∧
    (async_send_request false CONST.USER_URL clNoAuth
      [authOk, .resp 200 "application/json" (.obj [(CONST.RESPONSE_DATA, .str "u")])]).log
      = [CONST.LOGIN_URL, CONST.USER_URL] := by
  refine ⟨?_, ?_, ?_, ?_⟩
  · exact (C5_auth_clear_and_implicit_login.1 CONST.USER_URL "text/plain"
      (.str "denied") clAuthed [] true (by decide)).1
  · exact (C5_auth_clear_and_implicit_login.1 CONST.USER_URL "text/plain"
      (.str "denied") clAuthed [] true (by decide)).2
  · exact (C5_auth_clear_and_implicit_login.2.1 "text/plain" (.str "denied")
      clAuthed [] false).1
  · exact C5_auth_clear_and_implicit_login.2.2 CONST.USER_URL clNoAuth
      [.resp 200 "application/json" (.obj [(CONST.RESPONSE_DATA, .str "u")])]
      "user" "pw" (by decide) (by decide) rfl rfl

/-- C6 counterexample: `getDevice("d1", forceRefresh=true)` on an empty
registry loads the device list, finds the device, but performs no
per-device update — the only request issued is the device-list fetch (no
snapshot or activities request), because the loading branch clears the
refresh flag; this refutes "including when the device list had to be loaded
first within the same call". -/
theorem C6_counterexample_refresh_dropped_after_load :
    ((async_get_device "d1" true clAuthed [devicesListResp]).r.map
      (fun d => d.deviceId)) = .ok "d1" ∧
    (async_get_device "d1" true clAuthed [devicesListResp]).log
      = [CONST.DEVICES_URL] := ⟨rfl, rfl⟩

/-- C6 amended: if no devices are loaded yet, the full list is loaded first;
the call fails with NotFound iff the id is absent after loading; when
`forceRefresh` is true, the id is present and the registry was already
loaded, a full per-device update (snapshot and activities requests) runs
before the record is returned — but when the device list had to be loaded
first within the same call, the refresh flag is dropped and no per-device
update is performed. -/
theorem C6_amended_get_device :
    (∀ (cl : Client) (id : String) (r : Bool) (sc : List HttpOutcome),
      cl.devices ≠ [] → getA cl.devices id = none →
      async_get_device id r cl sc = ⟨.error (.skybell "Device not found"), cl, sc, []⟩) ∧
    ((async_get_device "nope" true clAuthed [devicesListResp]).r
      = .error (.skybell "Device not found")) ∧
    ((async_get_device "d1" true clWithDev [snapOk, actsEmpty]).log
      = [strReplace CONST.DEVICE_SNAPSHOT_URL "$DEVID$" "d1",
         strReplace CONST.DEVICE_ACTIVITIES_URL "$DEVID$" "d1"] ∧
     ((async_get_device "d1" true clWithDev [snapOk, actsEmpty]).r.map
       (fun d => d.deviceId)) = .ok "d1") ∧
    ((async_get_device "d1" true clAuthed [devicesListResp]).log
      = [CONST.DEVICES_URL]) := by
  refine ⟨?_, rfl, ⟨rfl, rfl⟩, rfl⟩
  intro cl id r sc hne hid
  have hemp : cl.devices.isEmpty = false := by
    cases hd : cl.devices with
    | nil => exact absurd hd hne
    | cons a l => rfl
  simp [async_get_device, hemp, async_get_device_rest, hid]

/-- C6 witness: the NotFound arm applied to the fixture registry. -/
theorem C6_amended_get_device_witness :
    async_get_device "nope" false clWithDev []
      = ⟨.error (.skybell "Device not found"), clWithDev, [], []⟩ :=
  C6_amended_get_device.1 clWithDev "nope" false [] (List.cons_ne_nil _ _) rfl

/-- C7: the device-list merge path evaluated at its failing input.  The
fresh fragment for device `d1` carries `name = "new"`, but after the merge
the existing record still has `name = "old"` and instead grew a nested copy
of the whole fragment under the key `"d1"` — because `async_get_devices`
passes `{device_id: fragment}` rather than the fragment itself to
`device.async_update`, the deep union happens one level too deep.  No
reader of the record ever looks at such a nested key, so the fetched field
values are unreachable: the spec's field-by-field merge is clearly the
intent and the wrapping is a slip. -/
theorem C7_code_bug_wrapped_fragment_merge :
    ((getA (async_get_devices true clWithDev
        [devicesListResp, snapOk, actsEmpty]).cl.devices "d1").map
      (fun d => getA d.deviceJson "name")) = some (some (.str "old")) ∧
    ((getA (async_get_devices true clWithDev
        [devicesListResp, snapOk, actsEmpty]).cl.devices "d1").map
      (fun d => getA d.deviceJson "d1")) = some (some (.obj rowD1)) ∧
    (async_get_devices true clWithDev [devicesListResp, snapOk, actsEmpty]).r.isOk
      = true := ⟨rfl, rfl, rfl⟩

/-- Fixture: a client with one registered device and cleared
AuthenticationMaterial. -/
def clNoAuthWithDev : Client :=
  { clWithDev with cache := [(CONST.AUTHENTICATION_RESULT, .obj [])] }

/-- C8 counterexample: calling logout when nothing is logged in (empty
AuthenticationMaterial) leaves the in-memory device registry intact,
refuting "discards all in-memory device state — including in the case where
nothing was logged in". -/
theorem C8_counterexample_devices_kept_when_logged_out :
    lenJ (cache clNoAuthWithDev CONST.AUTHENTICATION_RESULT) = 0 ∧
    (async_logout clNoAuthWithDev).1 = true ∧
    (async_logout clNoAuthWithDev).2.devices.length = 1 := ⟨rfl, rfl, rfl⟩

/-- C8 amended: every call to logout returns true and leaves
AuthenticationMaterial empty; the in-memory device state is discarded (and
the owned connection resource closed) only when AuthenticationMaterial was
non-empty at the time of the call — when nothing was logged in, the device
registry is retained unchanged. -/
theorem C8_amended_logout :
    (∀ cl : Client, (async_logout cl).1 = true ∧
      cache (async_logout cl).2 CONST.AUTHENTICATION_RESULT = .obj []) ∧
    (∀ cl : Client, lenJ (cache cl CONST.AUTHENTICATION_RESULT) = 0 →
      (async_logout cl).2.devices = cl.devices ∧
      (async_logout cl).2.sessionClosed = cl.sessionClosed) ∧
    (∀ cl : Client, 0 < lenJ (cache cl CONST.AUTHENTICATION_RESULT) →
      (async_logout cl).2.devices = []) := by
  refine ⟨?_, ?_, ?_⟩
  · intro cl
    refine ⟨rfl, ?_⟩
    show (getA (update _ [(CONST.AUTHENTICATION_RESULT, .obj [])])
      CONST.AUTHENTICATION_RESULT).getD (.str "") = .obj []
    rw [getA_update_clear]
    rfl
  · intro cl h
    unfold async_logout
    rw [if_neg (by omega)]
    exact ⟨rfl, rfl⟩
  · intro cl h
    unfold async_logout
    rw [if_pos h]
    rfl

/-- C8 witness: the amended statement applied to the fixture clients with
and without stored AuthenticationMaterial. -/
theorem C8_amended_logout_witness :
    (async_logout clWithDev).1 = true ∧
    cache (async_logout clWithDev).2 CONST.AUTHENTICATION_RESULT = .obj [] ∧
    (async_logout clNoAuthWithDev).2.devices = clNoAuthWithDev.devices ∧
    (async_logout clWithDev).2.devices = [] := by
  refine ⟨(C8_amended_logout.1 clWithDev).1, (C8_amended_logout.1 clWithDev).2,
    (C8_amended_logout.2.1 clNoAuthWithDev rfl).1, C8_amended_logout.2.2 clWithDev ?_⟩
  decide

/-- C9: setting validation is entirely local and runs before any dispatch —
a validation failure always carries the offending key and value, and when
the first entry of the settings dict fails validation the call raises
before any network request (empty request log), leaving the client, the
script and the device record untouched. -/
theorem C9_invalid_setting_local_failure :
    (∀ (k : String) (v : SettingValue),
      _validate_setting k v = .ok () ∨
      _validate_setting k v = .error (.invalidSetting k v)) ∧
    (∀ (k : String) (v : SettingValue) (rest : List (String × SettingValue))
      (dev : Device) (cl : Client) (sc : List HttpOutcome) (er : ReqError),
      _validate_setting k v = .error er →
      _async_set_setting ((k, v) :: rest) dev cl sc = ⟨.error er, cl, sc, []⟩) := by
  constructor
  · intro k v
    unfold _validate_setting
    split_ifs <;> first
      | (left; rfl)
      | (right; rfl)
  · intro k v rest dev cl sc er h
    simp [_async_set_setting, validateAll, h]

/-- C9 witness: setting `outdoor_chime_volume` to 5 — outside its
enumerated domain — fails locally with the key and value and performs zero
network calls. -/
theorem C9_invalid_setting_local_failure_witness :
    _async_set_setting [(CONST.OUTDOOR_CHIME_VOLUME, .i 5)]
        (SkybellDevice_init rowD1old) clAuthed []
      = ⟨.error (.invalidSetting CONST.OUTDOOR_CHIME_VOLUME (.i 5)), clAuthed, [], []⟩ :=
  C9_invalid_setting_local_failure.2 CONST.OUTDOOR_CHIME_VOLUME (.i 5) []
    (SkybellDevice_init rowD1old) clAuthed []
    (.invalidSetting CONST.OUTDOOR_CHIME_VOLUME (.i 5)) rfl

/-- C10: with an event-type filter, `latest` always returns a record whose
`event_time` field has been replaced by the parsed datetime of the stored
string (and exactly the epoch-time synthetic record when neither the
`device:sensor:<type>` nor the `application:on-<type>` key is indexed);
with no filter, it returns one of the indexed records unchanged, whose
`event_time` is still the raw stored string. -/
theorem C10_latest_event_time_parsing :
    (∀ (events : List (String × Obj)) (e : String) (res : Obj),
      latest events (some e) = .ok res →
      ∃ s, getA res CONST.EVENT_TIME = some (.time s)) ∧
    (∀ (events : List (String × Obj)) (e : String),
      getA events ("device:sensor:" ++ e) = none →
      getA events ("application:on-" ++ e) = none →
      latest events (some e)
        = .ok [(CONST.EVENT_TIME, .time "1970-01-01T00:00:00.000Z")]) ∧
    (∀ (k : String) (rec : Obj) (ev2 : List (String × Obj)) (res : Obj),
      (∀ p ∈ (k, rec) :: ev2, (p : String × Obj).2 ≠ [] ∧
        ∃ s, getA p.2 CONST.EVENT_TIME = some (.str s)) →
      latest ((k, rec) :: ev2) none = .ok res →
      res ∈ ((k, rec) :: ev2).map Prod.snd ∧
      ∃ s, getA res CONST.EVENT_TIME = some (.str s)) := by
  refine ⟨?_, ?_, ?_⟩
  · intro events e res h
    simp only [latest] at h
    split at h
    next s heq =>
      cases h
      exact ⟨s, getA_putA_self _ _ _⟩
    next => simp at h
  · intro events e h1 h2
    simp [latest, h1, h2, getA, putA]
  · intro k rec ev2 res hwf h
    obtain ⟨s0, hs0⟩ := (hwf (k, rec) (List.mem_cons_self _ _)).2
    simp only [latest, List.map_cons] at h
    unfold latestLoop at h
    rw [hs0] at h
    dsimp only at h
    have hmem := latestLoop_mem _ _ _ _ h
    have htime : ∀ q ∈ ((k, rec) :: ev2).map Prod.snd,
        ∃ s, getA q CONST.EVENT_TIME = some (.str s) := by
      intro q hq
      rcases List.mem_map.mp hq with ⟨p, hp, rfl⟩
      exact (hwf p hp).2
    rcases hmem with h1 | h1
    · subst h1
      exact ⟨by simp, s0, hs0⟩
    · refine ⟨List.mem_cons_of_mem _ (by simpa using h1), ?_⟩
      exact htime res (List.mem_cons_of_mem _ (by simpa using h1))

/-- C10 witness: the statement applied to a stored button record, an empty
index, and a two-entry index queried without a filter. -/
theorem C10_latest_event_time_parsing_witness :
    (∃ s, getA [(CONST.EVENT_TIME, JValue.time "t3")] CONST.EVENT_TIME
      = some (.time s)) ∧
    latest [] (some "button")
      = .ok [(CONST.EVENT_TIME, .time "1970-01-01T00:00:00.000Z")] ∧
    ([(CONST.EVENT_TIME, JValue.str "t7")] ∈
      ([("x", [(CONST.EVENT_TIME, JValue.str "t3")]),
        ("y", [(CONST.EVENT_TIME, JValue.str "t7")])].map Prod.snd) ∧
      ∃ s, getA [(CONST.EVENT_TIME, JValue.str "t7")] CONST.EVENT_TIME
        = some (.str s)) := by
  refine ⟨?_, ?_, ?_⟩
  · exact C10_latest_event_time_parsing.1
      [("device:sensor:button", [(CONST.EVENT_TIME, .str "t3")])] "button"
      [(CONST.EVENT_TIME, .time "t3")] rfl
  · exact C10_latest_event_time_parsing.2.1 [] "button" rfl rfl
  · refine C10_latest_event_time_parsing.2.2 "x" [(CONST.EVENT_TIME, .str "t3")]
      [("y", [(CONST.EVENT_TIME, .str "t7")])] [(CONST.EVENT_TIME, .str "t7")]
      ?_ rfl
    intro p hp
    simp only [List.mem_cons, List.mem_singleton] at hp
    rcases hp with rfl | rfl | h
    · exact ⟨by simp, "t3", rfl⟩
    · exact ⟨by simp, "t7", rfl⟩
    · exact absurd h (List.not_mem_nil p)
